import Mathlib

/-!
Shallow embedding of the FemtoBot deep-research engine
(`src/services/deep_research/`: `planner.py`, `hunter.py`, `reader.py`,
`critic.py`, plus `utils/search_utils.py`), written to settle the claims of
the natural-language specification against the code.

Modelling conventions:
* Python values that come out of `json.loads` are modelled by the inductive
  `Json`; JSON numbers are modelled as rationals (exact decimal literals such
  as `0.95` are representable, and all comparisons the code performs are
  order comparisons, which agree with IEEE semantics on these magnitudes).
* A Python exception is modelled as `Except PyExn α` with the exception text
  as the payload; `try ... except` becomes a `match` on the `Except`.
* The surrounding LLM / search / web-fetch capabilities are external; their
  outcomes enter the embedded functions as explicit arguments (oracles), as
  does the result of Python's `json.loads` (`jsonLoads : String → Option Json`,
  `none` modelling `json.JSONDecodeError`).
* `uuid.uuid4()[:8]` id generation enters as an oracle `mkId : Nat → String`.
* `datetime.now()` timestamp fields (`extracted_at`, `fetched_at`) are
  omitted from the records: no claim mentions them.
* Python string operations are modelled character-wise (Python strings are
  sequences of code points), e.g. `str.startswith` is prefix of the
  character list.
-/

/-- Python exception, abstracted to its message text. -/
abbrev PyExn := String

/-- Value produced by `json.loads`; numbers are modelled as rationals. -/
inductive Json where
  | null
  | bool (b : Bool)
  | num (q : ℚ)
  | str (s : String)
  | arr (xs : List Json)
  | obj (fields : List (String × Json))

/-- Dictionary lookup on a decoded JSON object (Python `data["k"]` / `data.get`). -/
def jsonLookup (fields : List (String × Json)) (k : String) : Option Json :=
  match fields with
  | [] => none
  | (k', v) :: rest => if k' = k then some v else jsonLookup rest k

/-- Python truthiness of a decoded JSON value (`if data:`). -/
def jsonTruthy : Json → Bool
  | .null => false
  | .bool b => b
  | .num q => q ≠ 0
  | .str s => s ≠ ""
  | .arr xs => !xs.isEmpty
  | .obj fs => !fs.isEmpty

/-- Python `str.strip` with no argument: drop whitespace characters from
both ends (character-based; Python's whitespace set and Lean's
`Char.isWhitespace` agree on the ASCII whitespace the code meets). -/
def pyStrip (s : String) : String :=
  ⟨((s.data.dropWhile Char.isWhitespace).reverse.dropWhile Char.isWhitespace).reverse⟩

/-- Python slicing `s[n:]`, character-based. -/
def pyDrop (s : String) (n : Nat) : String :=
  ⟨s.data.drop n⟩

/-- Python slicing `s[:-n]`, character-based (for `n ≤ len s`). -/
def pyDropRight (s : String) (n : Nat) : String :=
  ⟨s.data.take (s.data.length - n)⟩

/-- Python `str.startswith`, character-based. -/
def strStartsWith (s pre : String) : Bool :=
  pre.data.isPrefixOf s.data

/-- Python `str.endswith`, character-based. -/
def strEndsWith (s suf : String) : Bool :=
  suf.data.reverse.isPrefixOf s.data.reverse

/-- Python `pat in s` (substring test) for a nonempty pattern. -/
def strContainsSub (s pat : String) : Bool :=
  2 ≤ (s.splitOn pat).length

/-- Task lifecycle states (`models.TaskStatus`). -/
inductive TaskStatus where
  | PENDING
  | IN_PROGRESS
  | COMPLETED
  | FAILED
deriving DecidableEq, Repr

/-- One research sub-task (`models.ResearchTask`). Priorities are rationals
because they can be supplied by the model as JSON numbers. -/
structure ResearchTask where
  id : String
  query : String
  priority : ℚ
  status : TaskStatus
deriving DecidableEq, Repr

/-- One candidate web source (`models.Source`); `fetched_at` omitted. -/
structure Source where
  url : String
  title : String
  description : String
  task_id : String
  fetched_content : Option String := none
deriving DecidableEq, Repr

/-- One extracted content fragment (`models.Chunk`); `extracted_at` omitted. -/
structure Chunk where
  content : String
  source : Source
  relevance_score : ℚ
  task_id : String
deriving DecidableEq, Repr

/-- Gap analysis produced by the Critic (`models.GapAnalysis`). Elements of
the two lists are meaningful only as strings downstream; non-string elements
supplied by the model are not modelled (no claim exercises them). -/
structure GapAnalysis where
  has_gaps : Bool
  missing_aspects : List String
  suggested_queries : List String
  reasoning : String
deriving DecidableEq, Repr

/-- Critic per-task verdict (`models.IterationDecision`). -/
inductive IterationDecision where
  | CONTINUE
  | FINISH
deriving DecidableEq, Repr

/-- Markdown-fence stripping shared verbatim by `Planner._parse_plan_response`,
`Reader._parse_extraction_response` and `Critic._clean_json_response`. -/
def clean_json_response (response : String) : String :=
  let r := pyStrip response
  let r := if strStartsWith r "```json" then pyDrop r 7 else r
  let r := if strStartsWith r "```" then pyDrop r 3 else r
  let r := if strEndsWith r "```" then pyDropRight r 3 else r
  pyStrip r

/-- Result of `Planner._parse_plan_response` on the decoded response
(`none` = `json.JSONDecodeError`, caught inside and absorbed to `[]`).
The function itself never raises; it returns a Python value that is a list
in every branch except `data["tasks"]`, whose raw value is passed through. -/
def parse_plan_response (decoded : Option Json) : Json :=
  match decoded with
  | none => .arr []
  | some (.arr xs) => .arr xs
  | some (.obj fs) =>
    match jsonLookup fs "tasks" with
    | some v => v
    | none => .arr []
  | some _ => .arr []

/-- Construction of one `ResearchTask` from `task_data` inside
`Planner.create_research_plan`'s loop: `task_data["query"]` raises `KeyError`
when the key is absent, and indexing a non-dict raises `TypeError`; both are
caught by the surrounding `except`. A present non-string query value would be
accepted by the Python dataclass; that corner is not modelled (no claim
exercises it). `task_data.get("priority", i + 1)` defaults to `i + 1`;
non-numeric priority values are likewise not modelled. -/
def plan_task_of_json (mkId : Nat → String) (i : Nat) : Json → Except PyExn ResearchTask
  | .obj fs =>
    match jsonLookup fs "query" with
    | some (.str q) =>
      let pri : ℚ := match jsonLookup fs "priority" with
        | some (.num p) => p
        | _ => (i + 1 : ℚ)
      .ok { id := mkId i, query := q, priority := pri, status := .PENDING }
    | some _ => .error "TypeError: non-string query"
    | none => .error "KeyError: query"
  | _ => .error "TypeError: task_data is not a dict"

/-- The task-building loop of `Planner.create_research_plan`: iterates
`tasks_data` with `enumerate`, raising out of the loop at the first bad
element. -/
def build_plan_tasks (mkId : Nat → String) (i : Nat) :
    List Json → Except PyExn (List ResearchTask)
  | [] => .ok []
  | j :: rest =>
    match plan_task_of_json mkId i j with
    | .error e => .error e
    | .ok t =>
      match build_plan_tasks mkId (i + 1) rest with
      | .error e => .error e
      | .ok ts => .ok (t :: ts)

/-- Dispatch of `Planner.create_research_plan`'s loop on the value
`_parse_plan_response` returned: iterating a non-list raises `TypeError`
(the empty-dict/empty-string corner, which iterates zero times in Python,
is not modelled). -/
def plan_tasks_of_value (mkId : Nat → String) : Json → Except PyExn (List ResearchTask)
  | .arr xs => build_plan_tasks mkId 0 xs
  | _ => .error "TypeError: tasks_data is not iterable over dicts"

/-- Fallback task built in `Planner.create_research_plan`'s `except` branch:
a single task whose query is the original question, priority 1. -/
def fallback_task (question : String) (mkId : Nat → String) : ResearchTask :=
  { id := mkId 0, query := question, priority := 1, status := .PENDING }

/-- Embedding of `Planner.create_research_plan`.
`llmResponse` is the outcome of `_get_llm_response` (`.error` = the call
raised); `jsonLoads` is the `json.loads` oracle applied to the cleaned
response. The `except Exception` branch produces the single fallback task. -/
def create_research_plan (question : String) (mkId : Nat → String)
    (llmResponse : Except PyExn String) (jsonLoads : String → Option Json) :
    List ResearchTask :=
  match llmResponse with
  | .error _ => [fallback_task question mkId]
  | .ok response =>
    match plan_tasks_of_value mkId
        (parse_plan_response (jsonLoads (clean_json_response response))) with
    | .ok tasks => tasks
    | .error _ => [fallback_task question mkId]

/-- Embedding of `Reader._fetch_content`: the `WebFetcher` outcome enters as
`fetchResult` (`.error` = the fetch raised, caught inside; `.ok none` =
`fetcher.fetch_content` returned `None`). `return content if content else ""`
maps `None` to `""`; the empty string maps to itself either way. -/
def fetch_content (fetchResult : Except PyExn (Option String)) : String :=
  match fetchResult with
  | .ok (some c) => c
  | .ok none => ""
  | .error _ => ""

/-- Body of `fetch_one` inside `Reader.read_sources`: fetch the page, fall
back to the search-result description when the content is empty or its strip
is shorter than 50 characters, and record `fetched_content` on the source.
The result is `Except`-typed because the Python code wraps this body in
`try ... except` whose handler returns `(source, source.description)` — but
`_fetch_content` catches its own exceptions and everything else in the body
is pure, so the body, and hence `fetch_one`, always succeeds. -/
def fetch_one (source : Source) (fetchResult : Except PyExn (Option String)) :
    Except PyExn (Source × String) :=
  let content := fetch_content fetchResult
  let content := if content = "" || (pyStrip content).length < 50 then
      source.description
    else content
  .ok ({ source with fetched_content := some content }, content)

/-- Result of `Reader._parse_extraction_response` on the decoded response
(`none` = `json.JSONDecodeError`, caught inside and absorbed to `[]`). Like
the planner's parser it never raises; the `data["chunks"]` value is passed
through raw. -/
def parse_extraction_response (decoded : Option Json) : Json :=
  match decoded with
  | none => .arr []
  | some (.arr xs) => .arr xs
  | some (.obj fs) =>
    match jsonLookup fs "chunks" with
    | some v => v
    | none => .arr []
  | some _ => .arr []

/-- Numeric value of `chunk_data.get("relevance", 0.5)` as used by the
comparison `relevance >= self.min_relevance`: absent defaults to 0.5, Python
booleans compare as 0/1, and any other value raises `TypeError` at the
comparison. -/
def relevance_value (v : Option Json) : Except PyExn ℚ :=
  match v with
  | some (.num r) => .ok r
  | some (.bool b) => .ok (if b then 1 else 0)
  | none => .ok (mkRat 1 2)
  | some _ => .error "TypeError: relevance not comparable to float"

/-- One iteration of the chunk-validation loop in
`Reader._extract_relevant_chunks`: non-dict entries and dicts without a
`"content"` key are skipped (`continue`); the chunk is kept only when
`relevance >= min_relevance`. A present non-string `"content"` value would be
stored as-is by the Python dataclass; that corner is not modelled (no claim
exercises it) and is embedded as a skip. -/
def extract_one (source : Source) (minRel : ℚ) : Json → Except PyExn (Option Chunk)
  | .obj fs =>
    match jsonLookup fs "content" with
    | some (.str c) =>
      match relevance_value (jsonLookup fs "relevance") with
      | .error e => .error e
      | .ok r =>
        if minRel ≤ r then
          .ok (some { content := c, source := source, relevance_score := r,
                      task_id := source.task_id })
        else .ok none
    | some _ => .ok none
    | none => .ok none
  | _ => .ok none

/-- The validation loop of `Reader._extract_relevant_chunks` over
`chunks_data`: processed head-first, so the first `TypeError` raises out of
the loop. -/
def build_extracted_chunks (source : Source) (minRel : ℚ) :
    List Json → Except PyExn (List Chunk)
  | [] => .ok []
  | j :: rest =>
    match extract_one source minRel j with
    | .error e => .error e
    | .ok none => build_extracted_chunks source minRel rest
    | .ok (some c) =>
      match build_extracted_chunks source minRel rest with
      | .error e => .error e
      | .ok cs => .ok (c :: cs)

/-- Dispatch of the validation loop on the value
`_parse_extraction_response` returned: iterating a non-list value raises
`TypeError` (the zero-iteration empty-container corner is not modelled). -/
def extracted_chunks_of_value (source : Source) (minRel : ℚ) :
    Json → Except PyExn (List Chunk)
  | .arr xs => build_extracted_chunks source minRel xs
  | _ => .error "TypeError: chunks_data is not a list"

/-- Fallback chunk built in `Reader._extract_relevant_chunks`'s `except`
branch: the first 2000 characters of the payload at relevance 0.5. -/
def fallback_chunk (content : String) (source : Source) : Chunk :=
  { content := content.take 2000, source := source,
    relevance_score := mkRat 1 2, task_id := source.task_id }

/-- Embedding of `Reader._extract_relevant_chunks`. `llmResponse` is the
outcome of `_get_llm_response` (`.error` = the call raised); `jsonLoads` is
the `json.loads` oracle applied to the cleaned response. Only an exception
inside the `try` (a failed model call, or a `TypeError` while validating
chunks) reaches the fallback; an unparsable response is absorbed to `[]` by
`_parse_extraction_response` and yields zero chunks. -/
def extract_relevant_chunks (content : String) (source : Source)
    (llmResponse : Except PyExn String) (jsonLoads : String → Option Json)
    (minRel : ℚ) : List Chunk :=
  match llmResponse with
  | .error _ => [fallback_chunk content source]
  | .ok resp =>
    match extracted_chunks_of_value source minRel
        (parse_extraction_response (jsonLoads (clean_json_response resp))) with
    | .ok chunks => chunks
    | .error _ => [fallback_chunk content source]

/-- Phase 1 of `Reader.read_sources`: the concurrent fetch fan-out,
`asyncio.gather(..., return_exceptions=True)`. The per-source fetcher
outcomes enter as `fetchOracle`, indexed by the source's position. -/
def fetch_phase (sources : List Source)
    (fetchOracle : Nat → Except PyExn (Option String)) :
    List (Except PyExn (Source × String)) :=
  sources.enum.map fun p => fetch_one p.2 (fetchOracle p.1)

/-- Embedding of `Reader.read_sources`. Phase 2 walks the gathered results,
skipping any entry that is an exception (`isinstance(result, Exception)`)
and extracting chunks from the rest; `llmOracle i` is the outcome of the
extraction model call for source `i` (the indices line up because, as proved
below, no fetch entry is an exception). The per-source `try ... except`
around the extraction call cannot fire because `_extract_relevant_chunks`
catches its own exceptions, so it is not represented. -/
def read_sources (sources : List Source)
    (fetchOracle : Nat → Except PyExn (Option String))
    (llmOracle : Nat → Except PyExn String)
    (jsonLoads : String → Option Json) (minRel : ℚ) : List Chunk :=
  ((fetch_phase sources fetchOracle).enum.map fun p =>
    match p.2 with
    | .error _ => []
    | .ok (source, content) =>
      extract_relevant_chunks content source (llmOracle p.1) jsonLoads minRel).flatten

/-- Parsed evaluation verdict built by `Critic._parse_evaluation_response`
(the `confidence` field is never read downstream and is omitted). The
`sufficient` field collapses Python's later truthiness test
`if evaluation["sufficient"]:` into a `Bool`; a non-string `reasoning` value
would be stored as-is by Python and only interpolated into later prompt text,
which the oracles absorb, so it is modelled by its default. -/
structure EvalParsed where
  sufficient : Bool
  reasoning : String
deriving DecidableEq, Repr

/-- Embedding of `Critic._parse_evaluation_response` on the decoded response.
Only `json.JSONDecodeError` is caught (absorbed to a not-sufficient default);
`data.get` on a decoded non-dict raises `AttributeError`, which propagates to
the caller's `except`. -/
def parse_evaluation_response (decoded : Option Json) : Except PyExn EvalParsed :=
  match decoded with
  | none => .ok { sufficient := false, reasoning := "Parse error" }
  | some (.obj fs) =>
    .ok { sufficient := jsonTruthy ((jsonLookup fs "sufficient").getD (.bool false)),
          reasoning := match jsonLookup fs "reasoning" with
            | some (.str s) => s
            | _ => "" }
  | some _ => .error "AttributeError: get"

/-- String elements of a decoded JSON list value, defaulting to `[]`
(used for `data.get("missing_aspects", [])` and
`data.get("suggested_queries", [])` in `Critic._parse_gap_response`;
non-list values and non-string elements are not modelled — no claim
exercises them). -/
def json_str_list (v : Option Json) : List String :=
  match v with
  | some (.arr xs) => xs.filterMap fun j =>
      match j with
      | .str s => some s
      | _ => none
  | _ => []

/-- Embedding of `Critic._parse_gap_response` on the decoded response. Only
`json.JSONDecodeError` is caught (absorbed to a fixed parse-failure gap);
`data.get` on a decoded non-dict raises `AttributeError`, which propagates
to the caller's `except`. -/
def parse_gap_response (decoded : Option Json) : Except PyExn GapAnalysis :=
  match decoded with
  | none =>
    .ok { has_gaps := true, missing_aspects := ["Parse error"],
          suggested_queries := [], reasoning := "Failed to parse response" }
  | some (.obj fs) =>
    .ok { has_gaps := true,
          missing_aspects := json_str_list (jsonLookup fs "missing_aspects"),
          suggested_queries := json_str_list (jsonLookup fs "suggested_queries"),
          reasoning := match jsonLookup fs "reasoning" with
            | some (.str s) => s
            | _ => "" }
  | some _ => .error "AttributeError: get"

/-- Fallback gap built in `Critic._analyze_gaps`'s `except` branch: resubmit
the task query with a " specific details" suffix unless it already carries
one. -/
def analyze_gaps_fallback (task : ResearchTask) (e : PyExn) : GapAnalysis :=
  let new_query := if strContainsSub task.query "specific details" then task.query
    else task.query ++ " specific details"
  { has_gaps := true, missing_aspects := ["Analysis error"],
    suggested_queries := [new_query],
    reasoning := "Error during gap analysis: " ++ e }

/-- Embedding of `Critic._analyze_gaps`; total, because its `except` catches
both a failed model call and a propagated parse `AttributeError`. -/
def analyze_gaps (task : ResearchTask) (llmResponse : Except PyExn String)
    (jsonLoads : String → Option Json) : GapAnalysis :=
  match llmResponse with
  | .error e => analyze_gaps_fallback task e
  | .ok resp =>
    match parse_gap_response (jsonLoads (clean_json_response resp)) with
    | .ok g => g
    | .error e => analyze_gaps_fallback task e

/-- Synthetic gap built by `Critic.evaluate_task`'s fast minimum-chunk path. -/
def min_chunks_gap (task : ResearchTask) : GapAnalysis :=
  { has_gaps := true, missing_aspects := ["Insufficient sources found"],
    suggested_queries := [task.query ++ " more details"],
    reasoning := "Not enough sources found for this task" }

/-- Fallback gap built in `Critic.evaluate_task`'s `except` branch. -/
def eval_error_gap (task : ResearchTask) (e : PyExn) : GapAnalysis :=
  { has_gaps := true, missing_aspects := ["Evaluation error"],
    suggested_queries := [task.query],
    reasoning := "Error during evaluation: " ++ e }

/-- Embedding of `Critic.evaluate_task`. `minChunks` is the configured
`min_chunks_per_task` (constructor default 2); `llm1` is the outcome of the
evaluation model call and `llm2` that of the gap-analysis call, should they
happen. The third component instruments the number of Completion Provider
calls attempted on the taken control path. -/
def evaluate_task (task : ResearchTask) (chunks : List Chunk) (minChunks : Nat)
    (llm1 llm2 : Except PyExn String) (jsonLoads : String → Option Json) :
    IterationDecision × Option GapAnalysis × Nat :=
  if chunks.length < minChunks then
    (.CONTINUE, some (min_chunks_gap task), 0)
  else
    match llm1 with
    | .error e => (.CONTINUE, some (eval_error_gap task e), 1)
    | .ok resp =>
      match parse_evaluation_response (jsonLoads (clean_json_response resp)) with
      | .error e => (.CONTINUE, some (eval_error_gap task e), 1)
      | .ok ev =>
        if ev.sufficient then (.FINISH, none, 1)
        else (.CONTINUE, some (analyze_gaps task llm2 jsonLoads), 2)

/-- Fallback gap built in `Critic._analyze_gaps_final`'s `except` branch:
resubmit the original question. -/
def analyze_gaps_final_fallback (question : String) (e : PyExn) : GapAnalysis :=
  { has_gaps := true, missing_aspects := ["Unknown"],
    suggested_queries := [question], reasoning := e }

/-- Embedding of `Critic._analyze_gaps_final`; total for the same reason as
`_analyze_gaps`. The research context enters only through the prompt text
(absorbed by the oracle) and the fallback's use of the original question. -/
def analyze_gaps_final (question : String) (llmResponse : Except PyExn String)
    (jsonLoads : String → Option Json) : GapAnalysis :=
  match llmResponse with
  | .error e => analyze_gaps_final_fallback question e
  | .ok resp =>
    match parse_gap_response (jsonLoads (clean_json_response resp)) with
    | .ok g => g
    | .error e => analyze_gaps_final_fallback question e

/-- Embedding of `Critic._create_tasks_from_gap`: at most the first three
suggested queries become tasks, each with priority 99 (the code comment reads
"High priority (emergency)"). The `context` parameter of the Python method is
unused by its body and dropped. -/
def create_tasks_from_gap (gap : GapAnalysis) (mkId : Nat → String) :
    List ResearchTask :=
  (gap.suggested_queries.take 3).enum.map fun p =>
    { id := mkId p.1, query := p.2, priority := 99, status := .PENDING }

/-- Embedding of `Critic.evaluate_final`. `llm1` is the outcome of the final
evaluation call and `llm2` that of the final gap-analysis call; the third
component instruments the number of Completion Provider calls attempted.
Any exception (failed call, parse `AttributeError`) reaches the outer
`except` and yields `(False, [])`. -/
def evaluate_final (question : String) (llm1 llm2 : Except PyExn String)
    (jsonLoads : String → Option Json) (mkId : Nat → String) :
    Bool × List ResearchTask × Nat :=
  match llm1 with
  | .error _ => (false, [], 1)
  | .ok resp =>
    match parse_evaluation_response (jsonLoads (clean_json_response resp)) with
    | .error _ => (false, [], 1)
    | .ok ev =>
      if ev.sufficient then (false, [], 1)
      else
        (true, create_tasks_from_gap (analyze_gaps_final question llm2 jsonLoads) mkId, 2)

/-- Parsing loop of `Hunter._parse_search_results`: entries are blocks split
on blank lines; a block contributes a source only when it has at least three
lines (title, description, URL); the title drops everything up to the first
". " when present and strips `**` markers. -/
def parse_search_entry (entry : String) (task_id : String) : Option Source :=
  let lines := (pyStrip entry).splitOn "\n"
  if 3 ≤ lines.length then
    let title_line := lines.getD 0 ""
    let parts := title_line.splitOn ". "
    let title := if 2 ≤ parts.length then String.intercalate ". " parts.tail
      else title_line
    let title := pyStrip (title.replace "**" "")
    some { url := pyStrip (lines.getD 2 ""), title := title,
           description := pyStrip (lines.getD 1 ""), task_id := task_id }
  else none

/-- Embedding of `Hunter._parse_search_results`: an empty result string, or
one starting with `"["` (the error convention of `BraveSearch.search`) or
with `"No results"`, yields no sources. -/
def parse_search_results (results : String) (task_id : String) : List Source :=
  if results = "" || strStartsWith results "[" || strStartsWith results "No results" then
    []
  else
    (results.splitOn "\n\n").filterMap fun entry => parse_search_entry entry task_id

/-- Embedding of `Hunter.hunt`: the `BraveSearch.search` outcome enters as
`searchResult` (`.error` = the call raised); the surrounding `try ... except`
turns any exception into an empty source list. -/
def hunt (task : ResearchTask) (searchResult : Except PyExn String) : List Source :=
  match searchResult with
  | .error _ => []
  | .ok s => parse_search_results s task.id

/-- Terminal outcomes of `BraveSearch.search` in `utils/search_utils.py`:
every failure path returns a bracketed error string rather than raising, and
an empty result set returns "[No results found]". -/
inductive BraveOutcome where
  | noKey
  | rateLimitExceeded
  | httpStatusError (code : Nat)
  | otherError (msg : String)
  | maxRetries
  | results (rs : List (String × String × String))

/-- Formatting of one search hit in `BraveSearch.search`
(`f"{i}. **{title}**\n   {description}\n   {url}"`). -/
def brave_format_entry (i : Nat) (r : String × String × String) : String :=
  toString i ++ ". **" ++ r.1 ++ "**\n   " ++ r.2.1 ++ "\n   " ++ r.2.2

/-- The string `BraveSearch.search` returns for each terminal outcome. -/
def brave_search_string : BraveOutcome → String
  | .noKey => "[Error: BRAVE_API_KEY not configured in .env]"
  | .rateLimitExceeded => "[Error: Rate limit exceeded (429)]"
  | .httpStatusError code => "[Search error: " ++ toString code ++ "]"
  | .otherError msg => "[Search error: " ++ msg ++ "]"
  | .maxRetries => "[Error: Maximum retries exceeded]"
  | .results rs =>
    if rs.isEmpty then "[No results found]"
    else String.intercalate "\n\n" (rs.enum.map fun p => brave_format_entry (p.1 + 1) p.2)

/-- Provider-side failure outcomes of `BraveSearch.search` (everything except
an actual result set). -/
def brave_is_failure : BraveOutcome → Bool
  | .results _ => false
  | _ => true

/-- Modelled from the spec: run phases of the Orchestrator state machine
(spec section 4.6); `orchestrator.py` is not among the provided sources, only
its import site and the spec describe it. -/
inductive RunPhase where
  | PLANNING
  | ITERATING
  | FINAL_CHECK
  | WRITING
  | DONE
deriving DecidableEq, Repr

/-- Modelled from the spec: the root aggregate `ResearchContext` as the
Orchestrator's loop state — task list, `iteration_count`, `max_iterations`
(spec section 3), plus the current phase and the one-shot flag for the
single FINAL_CHECK re-entry (spec section 4.6 step 3, "return to ITERATING
once"). -/
structure OrchState where
  phase : RunPhase
  tasks : List ResearchTask
  iteration_count : Nat
  max_iterations : Nat
  final_check_done : Bool
deriving Repr

/-- Modelled from the spec: the outcomes of the external work one orchestrator
step consumes — the Planner's batch, the Critic's per-task decision, whether
the gap-filling pass exhausted the task ("no new usable fragments ⇒ abandon",
spec section 4.6 step 2d), and the final evaluation's proposal. -/
structure StepInput where
  planned : List ResearchTask
  decision : IterationDecision
  abandoned : Bool
  should_continue : Bool
  extra_tasks : List ResearchTask

/-- Whether some task is still pending (spec section 4.6 step 2: "while there
exists a pending/continuing Task"). -/
def hasPending (tasks : List ResearchTask) : Bool :=
  tasks.any fun t => t.status = TaskStatus.PENDING

/-- Modelled from the spec: select the next task "by priority (lowest numeric
value first; ties broken by insertion order)" (spec section 4.6 step 2a),
returning its position among the pending tasks. -/
def select_idx (tasks : List ResearchTask) : Option Nat :=
  ((tasks.enum.filter fun p => p.2.status = TaskStatus.PENDING).foldl
    (fun best cur =>
      match best with
      | none => some cur
      | some b => if cur.2.priority < b.2.priority then some cur else some b)
    none).map fun p => p.1

/-- Mark the task at position `i` completed. -/
def complete_at (tasks : List ResearchTask) (i : Nat) : List ResearchTask :=
  tasks.enum.map fun p =>
    if p.1 = i then { p.2 with status := TaskStatus.COMPLETED } else p.2

/-- Modelled from the spec: one transition of the Orchestrator state machine
(spec section 4.6). PLANNING seeds the tasks; ITERATING runs while a pending
task exists and `iteration_count < max_iterations`, a FINISH decision
completing the selected task and a CONTINUE decision incrementing
`iteration_count` (completing the task instead when the abandon rule fires);
when the loop guard fails the run moves to FINAL_CHECK, which merges the
proposed extra tasks and re-enters ITERATING at most once and only while
under the cap; WRITING then transitions to DONE. -/
def orch_step (s : OrchState) (inp : StepInput) : OrchState :=
  match s.phase with
  | .PLANNING => { s with phase := .ITERATING, tasks := inp.planned }
  | .ITERATING =>
    if hasPending s.tasks = true ∧ s.iteration_count < s.max_iterations then
      match select_idx s.tasks with
      | none => { s with phase := .FINAL_CHECK }
      | some i =>
        match inp.decision with
        | .FINISH => { s with tasks := complete_at s.tasks i }
        | .CONTINUE =>
          { s with iteration_count := s.iteration_count + 1,
                   tasks := if inp.abandoned then complete_at s.tasks i else s.tasks }
    else { s with phase := .FINAL_CHECK }
  | .FINAL_CHECK =>
    if inp.should_continue = true ∧ inp.extra_tasks ≠ [] ∧
        s.iteration_count < s.max_iterations ∧ s.final_check_done = false then
      { s with phase := .ITERATING, tasks := s.tasks ++ inp.extra_tasks,
               final_check_done := true }
    else { s with phase := .WRITING }
  | .WRITING => { s with phase := .DONE }
  | .DONE => s

/-- Modelled from the spec: the initial state of a run — PLANNING phase, no
tasks yet, `iteration_count = 0`. -/
def orch_init (maxIter : Nat) : OrchState :=
  { phase := .PLANNING, tasks := [], iteration_count := 0,
    max_iterations := maxIter, final_check_done := false }

/-- States an orchestrator run can reach from some initial state. -/
inductive OrchReachable : OrchState → Prop where
  | init (maxIter : Nat) : OrchReachable (orch_init maxIter)
  | step (s : OrchState) (inp : StepInput) :
      OrchReachable s → OrchReachable (orch_step s inp)

/-- Payload computed by `fetch_one` for a source (content, or the description
fallback), factored out so the read_sources equation below can name it. -/
def fetch_one_payload (source : Source)
    (fetchResult : Except PyExn (Option String)) : String :=
  let content := fetch_content fetchResult
  if content = "" || (pyStrip content).length < 50 then source.description else content

/-- Concrete source used by the concrete evaluations below. Its description
is shorter than 50 characters, so it is also the fetch fallback payload. -/
def sample_source : Source :=
  { url := "https://example.com", title := "Example",
    description := "short description", task_id := "t1" }

/-- A parsed chunk entry that qualifies against any minimum relevance up
to 1. -/
def qualifying_chunk_json : Json :=
  .obj [("content", .str "c"), ("relevance", .num 1)]

/-- Concrete model output for the no-cap counterexample: six qualifying
chunks. -/
def six_chunks_json : Json :=
  .arr (List.replicate 6 qualifying_chunk_json)

/-- Concrete final-evaluation verdict: not sufficient. -/
def c8_eval_json : Json := .obj [("sufficient", .bool false)]

/-- Concrete final gap analysis proposing four queries. -/
def c8_gap_json : Json :=
  .obj [("suggested_queries", .arr [.str "g1", .str "g2", .str "g3", .str "g4"])]

/-- Concrete `json.loads` oracle distinguishing the two critic calls. -/
def c8_oracle : String → Option Json :=
  fun s => if s = "R1" then some c8_eval_json else some c8_gap_json

/-- Concrete id oracle. -/
def c8_mkId : Nat → String := fun n => toString n

/-- The chunk produced by the concrete below-minimum read_sources run. -/
def c4w_chunk : Chunk :=
  fallback_chunk "short description"
    { sample_source with fetched_content := some "short description" }

/-- One orchestrator step keeps `iteration_count` within `max_iterations`:
the only increment sits under the loop guard `iteration_count <
max_iterations`, and `max_iterations` is never written. -/
theorem orch_step_preserves_cap (s : OrchState) (inp : StepInput)
    (h : s.iteration_count ≤ s.max_iterations) :
    (orch_step s inp).iteration_count ≤ (orch_step s inp).max_iterations := by
  unfold orch_step
  cases s.phase <;> try exact h
  case ITERATING =>
    by_cases hg : hasPending s.tasks = true ∧ s.iteration_count < s.max_iterations
    · rw [if_pos hg]
      cases hsel : select_idx s.tasks with
      | none => exact h
      | some i =>
        cases inp.decision with
        | FINISH => exact h
        | CONTINUE => exact hg.2
    · rw [if_neg hg]; exact h
  case FINAL_CHECK =>
    by_cases hg : inp.should_continue = true ∧ inp.extra_tasks ≠ [] ∧
        s.iteration_count < s.max_iterations ∧ s.final_check_done = false
    · rw [if_pos hg]; exact h
    · rw [if_neg hg]; exact h

/-- Claim C1: for every research run, `iteration_count` never exceeds
`max_iterations` while the run is active (so in particular when the Writing
phase begins), and once the cap is reached an ITERATING step leaves the
iteration loop for FINAL_CHECK regardless of task state. -/
theorem iteration_count_bounded (s : OrchState) (h : OrchReachable s) :
    s.iteration_count ≤ s.max_iterations ∧
    (s.phase = RunPhase.WRITING → s.iteration_count ≤ s.max_iterations) ∧
    ∀ inp : StepInput, s.phase = RunPhase.ITERATING →
      s.max_iterations ≤ s.iteration_count →
      (orch_step s inp).phase = RunPhase.FINAL_CHECK := by
  have hle : s.iteration_count ≤ s.max_iterations := by
    induction h with
    | init maxIter => exact Nat.zero_le _
    | step s' inp _ ih => exact orch_step_preserves_cap s' inp ih
  refine ⟨hle, fun _ => hle, ?_⟩
  intro inp hph hcap
  unfold orch_step
  rw [hph]
  rw [if_neg]
  · rintro ⟨-, hlt⟩
    omega

/-- Witness for C1 at a concrete reachable state. -/
theorem iteration_count_bounded_witness :
    (orch_init 5).iteration_count ≤ (orch_init 5).max_iterations :=
  (iteration_count_bounded (orch_init 5) (OrchReachable.init 5)).1

/-- Claim C6: with fewer fragments than the configured minimum,
`Critic.evaluate_task` returns CONTINUE with the synthetic gap and attempts
zero Completion Provider calls, whatever the provider oracles would have
answered. -/
theorem evaluate_task_fast_path (task : ResearchTask) (chunks : List Chunk)
    (minChunks : Nat) (llm1 llm2 : Except PyExn String)
    (jsonLoads : String → Option Json)
    (h : chunks.length < minChunks) :
    evaluate_task task chunks minChunks llm1 llm2 jsonLoads =
      (IterationDecision.CONTINUE, some (min_chunks_gap task), 0) := by
  unfold evaluate_task
  rw [if_pos h]

/-- Witness for C6: zero fragments against the default minimum of 2, with a
failing provider, still yields the fast-path result. -/
theorem evaluate_task_fast_path_witness :
    evaluate_task ⟨"t1", "q", 1, TaskStatus.PENDING⟩ [] 2
      (Except.error "down") (Except.error "down") (fun _ => none) =
      (IterationDecision.CONTINUE,
       some (min_chunks_gap ⟨"t1", "q", 1, TaskStatus.PENDING⟩), 0) :=
  evaluate_task_fast_path ⟨"t1", "q", 1, TaskStatus.PENDING⟩ [] 2
    (Except.error "down") (Except.error "down") (fun _ => none) (by decide)

/-- Claim C2 counterexample: with an unparsable decomposition response, the
planner returns the empty task list, not the single fallback task the claim
demands. -/
theorem create_research_plan_unparsable_counterexample :
    create_research_plan "What is X?" (fun _ => "id0")
      (Except.ok "not json") (fun _ => none) = [] ∧
    [fallback_task "What is X?" (fun _ => "id0")] ≠ ([] : List ResearchTask) :=
  ⟨rfl, by simp⟩

/-- Claim C2 (amended): an unparsable decomposition response is absorbed by
`_parse_plan_response` to an empty list, so the planner returns zero tasks
(still without raising); the single fallback task with the original question
as query is produced only when an exception escapes the planning body, e.g.
when the completion call itself fails. -/
theorem create_research_plan_amended (question : String) (mkId : Nat → String)
    (resp : String) (jsonLoads : String → Option Json) (e : PyExn)
    (h : jsonLoads (clean_json_response resp) = none) :
    create_research_plan question mkId (Except.ok resp) jsonLoads = [] ∧
    create_research_plan question mkId (Except.error e) jsonLoads =
      [fallback_task question mkId] ∧
    (fallback_task question mkId).query = question := by
  refine ⟨?_, rfl, rfl⟩
  unfold create_research_plan
  dsimp only
  rw [h]
  rfl

/-- Witness for the amended C2 at concrete inputs. -/
theorem create_research_plan_amended_witness :
    create_research_plan "Q" (fun _ => "id0") (Except.ok "garbage")
        (fun _ => none) = [] ∧
    create_research_plan "Q" (fun _ => "id0") (Except.error "down")
        (fun _ => none) = [fallback_task "Q" (fun _ => "id0")] ∧
    (fallback_task "Q" (fun _ => "id0")).query = "Q" :=
  create_research_plan_amended "Q" (fun _ => "id0") "garbage" (fun _ => none)
    "down" rfl

/-- Claim C3 counterexample: with an unparsable extraction response, the
Reader produces zero fragments for the source, not the single
first-2000-characters fragment at relevance 0.5 the claim demands. -/
theorem reader_parse_failure_counterexample :
    extract_relevant_chunks "the raw payload" sample_source
      (Except.ok "garbage") (fun _ => none) (mkRat 7 10) = [] ∧
    [fallback_chunk "the raw payload" sample_source] ≠ ([] : List Chunk) :=
  ⟨rfl, by simp⟩

/-- Claim C3 (amended): an unparsable extraction response is absorbed by
`_parse_extraction_response` to an empty list, so the source yields zero
fragments; the single fragment holding the first 2000 characters of the raw
payload at relevance 0.5 is produced only when the extraction model call
itself raises. -/
theorem extract_relevant_chunks_amended (content : String) (source : Source)
    (resp : String) (jsonLoads : String → Option Json) (minRel : ℚ) (e : PyExn)
    (h : jsonLoads (clean_json_response resp) = none) :
    extract_relevant_chunks content source (Except.ok resp) jsonLoads minRel = [] ∧
    extract_relevant_chunks content source (Except.error e) jsonLoads minRel =
      [fallback_chunk content source] := by
  refine ⟨?_, rfl⟩
  unfold extract_relevant_chunks
  dsimp only
  rw [h]
  rfl

/-- Witness for the amended C3 at concrete inputs. -/
theorem extract_relevant_chunks_amended_witness :
    extract_relevant_chunks "payload" sample_source (Except.ok "garbage")
        (fun _ => none) (mkRat 7 10) = [] ∧
    extract_relevant_chunks "payload" sample_source (Except.error "down")
        (fun _ => none) (mkRat 7 10) = [fallback_chunk "payload" sample_source] :=
  extract_relevant_chunks_amended "payload" sample_source "garbage"
    (fun _ => none) (mkRat 7 10) "down" rfl

/-- A chunk kept by the validation step carries a relevance at or above the
configured minimum — the code checks exactly `relevance >= min_relevance`. -/
theorem extract_one_score_bound (source : Source) (minRel : ℚ) (j : Json)
    (c : Chunk) (h : extract_one source minRel j = Except.ok (some c)) :
    minRel ≤ c.relevance_score := by
  unfold extract_one at h
  repeat' split at h
  all_goals (try cases h)
  all_goals simp_all

/-- Every chunk the validation loop keeps carries a relevance at or above the
configured minimum. -/
theorem build_extracted_chunks_score_bound (source : Source) (minRel : ℚ)
    (xs : List Json) (cs : List Chunk)
    (h : build_extracted_chunks source minRel xs = Except.ok cs) :
    ∀ c ∈ cs, minRel ≤ c.relevance_score := by
  induction xs generalizing cs with
  | nil =>
    simp only [build_extracted_chunks] at h
    cases h
    simp
  | cons j rest ih =>
    unfold build_extracted_chunks at h
    split at h
    · cases h
    · exact ih cs h
    · split at h
      · cases h
      · cases h
        intro c hc
        rcases List.mem_cons.mp hc with hceq | hmem
        · subst hceq
          exact extract_one_score_bound source minRel j c (by assumption)
        · exact ih _ (by assumption) c hmem

/-- Chunk-list dispatch preserves the lower bound. -/
theorem extracted_chunks_of_value_score_bound (source : Source) (minRel : ℚ)
    (v : Json) (cs : List Chunk)
    (h : extracted_chunks_of_value source minRel v = Except.ok cs) :
    ∀ c ∈ cs, minRel ≤ c.relevance_score := by
  cases v with
  | arr xs => exact build_extracted_chunks_score_bound source minRel xs cs h
  | null => exact absurd h (by simp [extracted_chunks_of_value])
  | bool b => exact absurd h (by simp [extracted_chunks_of_value])
  | num q => exact absurd h (by simp [extracted_chunks_of_value])
  | str s => exact absurd h (by simp [extracted_chunks_of_value])
  | obj fs => exact absurd h (by simp [extracted_chunks_of_value])

/-- Every fragment the extraction phase produces is either a kept
model-scored fragment (at or above the minimum) or the exception-fallback
fragment at exactly 0.5. -/
theorem extract_relevant_chunks_score_cases (content : String) (source : Source)
    (llmResponse : Except PyExn String) (jsonLoads : String → Option Json)
    (minRel : ℚ) (c : Chunk)
    (h : c ∈ extract_relevant_chunks content source llmResponse jsonLoads minRel) :
    minRel ≤ c.relevance_score ∨ c.relevance_score = mkRat 1 2 := by
  unfold extract_relevant_chunks at h
  split at h
  · right
    rw [List.mem_singleton] at h
    subst h
    rfl
  · split at h
    · exact Or.inl (extracted_chunks_of_value_score_bound source minRel _ _
        (by assumption) c h)
    · right
      rw [List.mem_singleton] at h
      subst h
      rfl

/-- Claim C4 counterexample: with the default minimum relevance 0.7, a failed
extraction call makes `read_sources` return a fragment at relevance 0.5,
which is below the minimum. -/
theorem read_sources_below_min_counterexample :
    (read_sources [sample_source] (fun _ => Except.ok none)
      (fun _ => Except.error "llm down") (fun _ => none) (mkRat 7 10)).map
        (fun c => c.relevance_score) = [mkRat 1 2] ∧
    ¬ (mkRat 7 10 ≤ mkRat 1 2) :=
  ⟨rfl, by norm_num⟩

/-- Claim C4 (amended): every fragment returned by `Reader.read_sources` is
either a kept model-scored fragment with relevance at least the configured
minimum, or an exception-fallback fragment at exactly 0.5 — and the fallback
may lie below the minimum, so the unqualified lower bound of the claim fails. -/
theorem read_sources_relevance_amended (sources : List Source)
    (fetchOracle : Nat → Except PyExn (Option String))
    (llmOracle : Nat → Except PyExn String) (jsonLoads : String → Option Json)
    (minRel : ℚ) (c : Chunk)
    (h : c ∈ read_sources sources fetchOracle llmOracle jsonLoads minRel) :
    minRel ≤ c.relevance_score ∨ c.relevance_score = mkRat 1 2 := by
  unfold read_sources at h
  rw [List.mem_flatten] at h
  obtain ⟨m, hm, hc⟩ := h
  rw [List.mem_map] at hm
  obtain ⟨p, hp, rfl⟩ := hm
  cases hE : p.2 with
  | error e =>
    rw [hE] at hc
    simp at hc
  | ok pair =>
    rw [hE] at hc
    exact extract_relevant_chunks_score_cases pair.2 pair.1 (llmOracle p.1)
      jsonLoads minRel c (by cases pair; exact hc)

set_option maxRecDepth 4000 in
/-- Witness for the amended C4 at the concrete below-minimum run. -/
theorem read_sources_relevance_amended_witness :
    mkRat 7 10 ≤ c4w_chunk.relevance_score ∨ c4w_chunk.relevance_score = mkRat 1 2 :=
  read_sources_relevance_amended [sample_source] (fun _ => Except.ok none)
    (fun _ => Except.error "llm down") (fun _ => none) (mkRat 7 10) c4w_chunk
    (List.Mem.head _)

/-- Claim C9 counterexample: a model-supplied relevance of 2 passes the
`relevance >= min_relevance` check and is stored unchanged, so the created
fragment's relevance lies outside [0,1]. -/
theorem relevance_above_one_counterexample :
    (extract_relevant_chunks "payload" sample_source (Except.ok "resp")
      (fun _ => some (.arr [.obj [("content", Json.str "x"), ("relevance", Json.num 2)]]))
      (mkRat 7 10)).map (fun c => c.relevance_score) = [2] ∧
    ¬ ((2 : ℚ) ≤ 1) :=
  ⟨rfl, by norm_num⟩

/-- Claim C9 (amended): every fragment created by the Reader's extraction
phase has relevance at least `min(min_relevance, 0.5)` — the code enforces
only this lower bound (threshold for parsed scores, fixed 0.5 for the
fallback); no upper bound of 1 is enforced, as the counterexample shows. -/
theorem extract_relevant_chunks_lower_bound (content : String) (source : Source)
    (llmResponse : Except PyExn String) (jsonLoads : String → Option Json)
    (minRel : ℚ) (c : Chunk)
    (h : c ∈ extract_relevant_chunks content source llmResponse jsonLoads minRel) :
    min minRel (mkRat 1 2) ≤ c.relevance_score := by
  rcases extract_relevant_chunks_score_cases content source llmResponse
      jsonLoads minRel c h with hge | heq
  · exact le_trans (min_le_left _ _) hge
  · rw [heq]
    exact min_le_right _ _

/-- Witness for the amended C9 at a concrete fallback fragment. -/
theorem extract_relevant_chunks_lower_bound_witness :
    min (mkRat 7 10) (mkRat 1 2) ≤ (fallback_chunk "payload" sample_source).relevance_score :=
  extract_relevant_chunks_lower_bound "payload" sample_source
    (Except.error "down") (fun _ => none) (mkRat 7 10)
    (fallback_chunk "payload" sample_source) (List.Mem.head _)

/-- Claim C5 counterexample: a model response with six qualifying chunks
yields six fragments from one source — no per-source cap of 5 is enforced in
the extraction code. -/
theorem five_fragment_cap_counterexample :
    (extract_relevant_chunks "payload" sample_source (Except.ok "resp")
      (fun _ => some six_chunks_json) (mkRat 7 10)).length = 6 ∧ ¬ (6 ≤ 5) :=
  ⟨rfl, by decide⟩

/-- The validation loop keeps every qualifying chunk: a list of n qualifying
entries yields exactly n chunks, for any n. -/
theorem build_replicate_chunks (source : Source) (n : Nat) :
    build_extracted_chunks source (mkRat 7 10)
        (List.replicate n qualifying_chunk_json) =
      Except.ok (List.replicate n
        { content := "c", source := source, relevance_score := 1,
          task_id := source.task_id }) := by
  induction n with
  | zero => rfl
  | succ k ih =>
    rw [List.replicate_succ, List.replicate_succ]
    unfold build_extracted_chunks
    have hone : extract_one source (mkRat 7 10) qualifying_chunk_json =
        Except.ok (some { content := "c", source := source,
                          relevance_score := 1, task_id := source.task_id }) := rfl
    rw [hone, ih]

/-- The success path of the extraction phase returns exactly the validated
chunk list. -/
theorem extract_relevant_chunks_ok (content : String) (source : Source)
    (resp : String) (jsonLoads : String → Option Json) (minRel : ℚ)
    (cs : List Chunk)
    (h : extracted_chunks_of_value source minRel
        (parse_extraction_response (jsonLoads (clean_json_response resp))) =
      Except.ok cs) :
    extract_relevant_chunks content source (Except.ok resp) jsonLoads minRel = cs := by
  unfold extract_relevant_chunks
  dsimp only
  rw [h]

/-- Claim C5 (amended): the 5-fragment-per-source limit appears only in the
prompt text handed to the model; the code retains every parsed chunk meeting
the relevance threshold, so for every n there is a model response yielding
exactly n fragments for one source. -/
theorem extract_relevant_chunks_no_cap (n : Nat) (content : String) (source : Source) :
    (extract_relevant_chunks content source (Except.ok "resp")
      (fun _ => some (.arr (List.replicate n qualifying_chunk_json)))
      (mkRat 7 10)).length = n := by
  rw [extract_relevant_chunks_ok content source "resp"
      (fun _ => some (.arr (List.replicate n qualifying_chunk_json))) (mkRat 7 10)
      (List.replicate n
        { content := "c", source := source, relevance_score := 1,
          task_id := source.task_id })
      (build_replicate_chunks source n)]
  exact List.length_replicate n _

/-- Witness-style instance of the no-cap theorem at n = 7. -/
theorem extract_relevant_chunks_no_cap_witness :
    (extract_relevant_chunks "payload" sample_source (Except.ok "resp")
      (fun _ => some (.arr (List.replicate 7 qualifying_chunk_json)))
      (mkRat 7 10)).length = 7 :=
  extract_relevant_chunks_no_cap 7 "payload" sample_source

/-- Appending character data preserves the string built from it. -/
theorem string_data_append (a b : String) : (a ++ b).data = a.data ++ b.data := by
  cases a
  cases b
  rfl

/-- A left bracket stays a left bracket when more characters follow. -/
theorem isPrefixOf_lbrack_append (l m : List Char)
    (h : List.isPrefixOf ['['] l = true) :
    List.isPrefixOf ['['] (l ++ m) = true := by
  cases l with
  | nil => simp [List.isPrefixOf] at h
  | cons a t =>
    simp [List.isPrefixOf] at h ⊢
    exact h

/-- Bracket-started strings keep their bracket start under append. -/
theorem strStartsWith_lbrack_append (a y : String)
    (h : strStartsWith a "[" = true) :
    strStartsWith (a ++ y) "[" = true := by
  unfold strStartsWith at h ⊢
  rw [string_data_append]
  exact isPrefixOf_lbrack_append a.data y.data h

/-- Any result string starting with a bracket parses to zero sources —
the error-string convention of the search utility. -/
theorem parse_search_results_error_string (s tid : String)
    (h : strStartsWith s "[" = true) :
    parse_search_results s tid = [] := by
  unfold parse_search_results
  rw [h]
  simp

/-- Claim C7: when the Search Provider fails — the call raises, or returns
any of the provider-side error strings (missing key, rate limiting after
internal retry, HTTP error, retry exhaustion) or an empty result set —
`Hunter.hunt` returns the empty list rather than raising. -/
theorem hunt_provider_failure (task : ResearchTask) (e : PyExn)
    (o : BraveOutcome) (h : brave_is_failure o = true) :
    hunt task (Except.error e) = [] ∧
    hunt task (Except.ok (brave_search_string o)) = [] := by
  refine ⟨rfl, ?_⟩
  show parse_search_results (brave_search_string o) task.id = []
  apply parse_search_results_error_string
  cases o with
  | noKey => rfl
  | rateLimitExceeded => rfl
  | maxRetries => rfl
  | httpStatusError code =>
    exact strStartsWith_lbrack_append _ "]"
      (strStartsWith_lbrack_append "[Search error: " (toString code) (by decide))
  | otherError msg =>
    exact strStartsWith_lbrack_append _ "]"
      (strStartsWith_lbrack_append "[Search error: " msg (by decide))
  | results rs =>
    simp [brave_is_failure] at h

/-- Witness for C7 at a concrete task, a raised search call and the
rate-limit error string. -/
theorem hunt_provider_failure_witness :
    hunt { id := "t1", query := "q", priority := 1, status := TaskStatus.PENDING }
      (Except.error "boom") = [] ∧
    hunt { id := "t1", query := "q", priority := 1, status := TaskStatus.PENDING }
      (Except.ok (brave_search_string BraveOutcome.rateLimitExceeded)) = [] :=
  hunt_provider_failure
    { id := "t1", query := "q", priority := 1, status := TaskStatus.PENDING }
    "boom" BraveOutcome.rateLimitExceeded rfl

/-- Claim C8 evidence: when the final evaluation judges the pool
insufficient, `evaluate_final` does return should_continue = true with at
most three tasks — but they carry the plain numeric priority 99, and under
the spec's lowest-numeric-value-first selection a remaining planner task of
priority 1 is selected ahead of them, so the "emergency" tasks do not
preempt the queue. -/
theorem emergency_tasks_do_not_preempt :
    evaluate_final "Q" (Except.ok "R1") (Except.ok "R2") c8_oracle c8_mkId =
      (true,
       [{ id := "0", query := "g1", priority := 99, status := .PENDING },
        { id := "1", query := "g2", priority := 99, status := .PENDING },
        { id := "2", query := "g3", priority := 99, status := .PENDING }], 2) ∧
    select_idx
      [{ id := "p", query := "planner query", priority := 1, status := .PENDING },
       { id := "0", query := "g1", priority := 99, status := .PENDING }] = some 0 ∧
    ¬ ((99 : ℚ) < 1) :=
  ⟨rfl, rfl, by norm_num⟩

/-- Index/payload alignment of the two phases of `read_sources`: because
every fetch entry is a success, the exception-skipping branch drops nothing
and every source contributes exactly one extraction call. -/
theorem read_sources_phase_align
    (fetchOracle : Nat → Except PyExn (Option String))
    (llmOracle : Nat → Except PyExn String)
    (jsonLoads : String → Option Json) (minRel : ℚ)
    (n : Nat) (ss : List Source) :
    (((ss.enumFrom n).map fun p => fetch_one p.2 (fetchOracle p.1)).enumFrom n).map
        (fun p =>
          match p.2 with
          | .error _ => []
          | .ok (source, content) =>
            extract_relevant_chunks content source (llmOracle p.1) jsonLoads minRel) =
      (ss.enumFrom n).map fun p =>
        extract_relevant_chunks (fetch_one_payload p.2 (fetchOracle p.1))
          { p.2 with fetched_content := some (fetch_one_payload p.2 (fetchOracle p.1)) }
          (llmOracle p.1) jsonLoads minRel := by
  induction ss generalizing n with
  | nil => rfl
  | cons s rest ih =>
    simp only [List.enumFrom, List.map_cons]
    rw [ih (n + 1)]
    rfl

/-- Claim C10: the Reader's fetch phase is total over fetch failures. Every
`fetch_one` result is a success carrying the computed payload; a raised
fetch in particular is replaced by the source's search-result description;
the gathered list therefore contains no exception entry; and `read_sources`
equals the flattened per-source extraction results — every input source
contributes a payload to the extraction phase, the exception-skipping
branch removing nothing. -/
theorem read_sources_fetch_total (sources : List Source)
    (fetchOracle : Nat → Except PyExn (Option String))
    (llmOracle : Nat → Except PyExn String)
    (jsonLoads : String → Option Json) (minRel : ℚ) :
    (∀ (source : Source) (fr : Except PyExn (Option String)),
      fetch_one source fr =
        Except.ok ({ source with fetched_content := some (fetch_one_payload source fr) },
                   fetch_one_payload source fr)) ∧
    (∀ (source : Source) (e : PyExn),
      fetch_one source (Except.error e) =
        Except.ok ({ source with fetched_content := some source.description },
                   source.description)) ∧
    (∀ r ∈ fetch_phase sources fetchOracle, ∃ p, r = Except.ok p) ∧
    read_sources sources fetchOracle llmOracle jsonLoads minRel =
      (sources.enum.map fun p =>
        extract_relevant_chunks (fetch_one_payload p.2 (fetchOracle p.1))
          { p.2 with fetched_content := some (fetch_one_payload p.2 (fetchOracle p.1)) }
          (llmOracle p.1) jsonLoads minRel).flatten := by
  refine ⟨fun source fr => rfl, fun source e => rfl, ?_, ?_⟩
  · intro r hr
    rw [fetch_phase] at hr
    rw [List.mem_map] at hr
    obtain ⟨p, hp, rfl⟩ := hr
    exact ⟨_, rfl⟩
  · unfold read_sources fetch_phase
    exact congrArg List.flatten
      (read_sources_phase_align fetchOracle llmOracle jsonLoads minRel 0 sources)

/-- Witness for C10: a raised fetch is absorbed and replaced by the
description payload. -/
theorem read_sources_fetch_total_witness :
    fetch_one sample_source (Except.error "net down") =
      Except.ok ({ sample_source with fetched_content := some sample_source.description },
                 sample_source.description) :=
  (read_sources_fetch_total [sample_source] (fun _ => Except.error "net down")
    (fun _ => Except.error "x") (fun _ => none) (mkRat 7 10)).2.1
    sample_source "net down"
